import Mathlib

/-!
Verification development for the account-state synchronizer of the
AITradeAgent frontend (src/frontend/src/context/AccountContext.tsx,
src/frontend/src/services/account.ts, src/frontend/src/services/mockData.ts,
src/frontend/src/utils/websocket.js — the module the websocket import
resolves to).

Modelling conventions, used uniformly below:
- JS numbers are modelled as rationals; every numeric literal in the
  source data is an exact decimal, so this is lossless.
- ISO timestamp strings are always consumed through Date.getTime in the
  source; timestamps are therefore modelled as epoch milliseconds (Int).
- The reducer calls new Date().toISOString(); the current clock value is
  an explicit argument of the embedded reducer.
- Array.prototype.sort with comparator (a, b) => tb - ta is a stable sort
  by descending timestamp; it is realized by List.insertionSort with the
  relation (fun a b => key b <= key a), which is stable and agrees with
  any stable sort for this total preorder.
-/

namespace AccountSync

/-! ## Data model (src/frontend/src/types/account.ts) -/

inductive Direction
  | LONG
  | SHORT
deriving DecidableEq

inductive OrderSide
  | BUY
  | SELL
deriving DecidableEq

inductive OrderType
  | LIMIT
  | MARKET
  | STOP
  | STOP_LIMIT
deriving DecidableEq

inductive OrderStatus
  | FILLED
  | PARTIALLY_FILLED
  | CANCELED
  | OPEN
  | REJECTED
deriving DecidableEq

structure Balance where
  asset : String
  available : ℚ
  hold : ℚ
  usdValue : ℚ
  allocation : ℚ
deriving DecidableEq

structure Pnl where
  value : ℚ
  percentage : ℚ
deriving DecidableEq

structure Position where
  symbol : String
  direction : Direction
  size : ℚ
  entryPrice : ℚ
  markPrice : ℚ
  pnl : Pnl
  margin : ℚ
  updatedAt : Int
  strategy : Option String := none
deriving DecidableEq

structure Order where
  id : String
  timestamp : Int
  symbol : String
  type : OrderType
  side : OrderSide
  price : ℚ
  quantity : ℚ
  filledQuantity : ℚ
  status : OrderStatus
deriving DecidableEq

structure Trade where
  id : String
  orderId : String
  timestamp : Int
  symbol : String
  side : OrderSide
  price : ℚ
  quantity : ℚ
  fee : ℚ
  strategy : Option String := none
deriving DecidableEq

structure PerformanceMetrics where
  totalReturn : ℚ
  annualizedReturn : ℚ
  maxDrawdown : ℚ
  sharpeRatio : ℚ
  winRate : ℚ
  averageWin : ℚ
  averageLoss : ℚ
  totalTrades : ℚ
  winningTrades : ℚ
  losingTrades : ℚ
  profitLossToday : ℚ
  profitLossTotal : ℚ
deriving DecidableEq

inductive TimeRange
  | oneD
  | oneW
  | oneM
  | threeM
  | sixM
  | oneY
  | ALL
deriving DecidableEq

inductive PerformanceRange
  | TODAY
  | WEEK
  | MONTH
  | YEAR
  | ALL
deriving DecidableEq

structure AssetHistoryPoint where
  timestamp : Int
  total : ℚ
  available : ℚ
  btcPrice : Option ℚ := none
  event : Option String := none
deriving DecidableEq

structure PairStatistic where
  symbol : String
  trades : ℚ
  pnl : ℚ
  winRate : ℚ
deriving DecidableEq

structure ProfitBucket where
  range : String
  count : ℚ
deriving DecidableEq

structure HoldingBucket where
  bucket : String
  count : ℚ
  avgPnl : ℚ
deriving DecidableEq

structure HeatmapCell where
  hour : ℚ
  weekday : ℚ
  trades : ℚ
  pnl : ℚ
deriving DecidableEq

structure StrategyPerformance where
  strategy : String
  pnl : ℚ
  winRate : ℚ
  sharpe : ℚ
  trades : ℚ
deriving DecidableEq

structure StatTotals where
  volume : ℚ
  fees : ℚ
deriving DecidableEq

structure TradeStatistics where
  byPair : List PairStatistic
  profitDistribution : List ProfitBucket
  holdingDurations : List HoldingBucket
  hourlyHeatmap : List HeatmapCell
  strategyComparison : List StrategyPerformance
  totals : StatTotals
deriving DecidableEq

inductive StrategyStatus
  | running
  | stopped
  | paused
deriving DecidableEq

structure Strategy where
  id : String
  name : String
  status : StrategyStatus
  pnl : ℚ
  winRate : ℚ
  trades : ℚ
  description : Option String := none
  lastUpdated : Int
deriving DecidableEq

inductive RiskSeverity
  | info
  | warning
  | critical
deriving DecidableEq

structure RiskEvent where
  id : String
  timestamp : Int
  rule : String
  severity : RiskSeverity
  details : String
deriving DecidableEq

structure RiskAlert where
  id : String
  type : String
  description : String
  threshold : Option ℚ := none
  enabled : Bool
deriving DecidableEq

structure RiskMetrics where
  currentExposure : ℚ
  maxExposure : ℚ
  leverage : ℚ
  maxLeverage : ℚ
  marginUtilization : ℚ
  var : ℚ
  riskEvents : List RiskEvent
  alerts : List RiskAlert
deriving DecidableEq

inductive NotificationCategory
  | order
  | price
  | strategy
  | system
deriving DecidableEq

inductive NotificationSeverity
  | info
  | success
  | warning
  | critical
deriving DecidableEq

structure Notification where
  id : String
  category : NotificationCategory
  title : String
  message : String
  timestamp : Int
  read : Bool
  severity : NotificationSeverity
deriving DecidableEq

/-- Order history filters; `endTime` renders the source field `end`
(a reserved word in Lean).  `start`/`endTime` stand for the parsed
Date.getTime value of the supplied bound; `none` covers an absent bound. -/
structure OrderFilters where
  start : Option Int := none
  endTime : Option Int := none
  status : Option String := none
  symbol : Option String := none
  side : Option String := none
deriving DecidableEq

structure TradeFilters where
  start : Option Int := none
  endTime : Option Int := none
  symbol : Option String := none
  side : Option String := none
deriving DecidableEq

structure AccountState where
  balance : List Balance
  positions : List Position
  orders : List Order
  trades : List Trade
  performance : Option PerformanceMetrics
  performanceRange : PerformanceRange
  assetHistory : List AssetHistoryPoint
  assetHistoryRange : TimeRange
  tradeStats : Option TradeStatistics
  strategies : List Strategy
  risk : Option RiskMetrics
  notifications : List Notification
  loading : Bool
  error : Option String
  lastUpdated : Option Int
deriving DecidableEq

/-! ## StateStore (src/frontend/src/context/AccountContext.tsx) -/

/-- The `initialState` constant of AccountContext.tsx. -/
def initialState : AccountState where
  balance := []
  positions := []
  orders := []
  trades := []
  performance := none
  performanceRange := .ALL
  assetHistory := []
  assetHistoryRange := .oneM
  tradeStats := none
  strategies := []
  risk := none
  notifications := []
  loading := false
  error := none
  lastUpdated := none

/-- `Partial<AccountState>`: the payload of the SET_STATE action; an absent
key leaves the corresponding field of the state untouched. -/
structure PartialAccountState where
  balance : Option (List Balance) := none
  positions : Option (List Position) := none
  orders : Option (List Order) := none
  trades : Option (List Trade) := none
  performance : Option (Option PerformanceMetrics) := none
  performanceRange : Option PerformanceRange := none
  assetHistory : Option (List AssetHistoryPoint) := none
  assetHistoryRange : Option TimeRange := none
  tradeStats : Option (Option TradeStatistics) := none
  strategies : Option (List Strategy) := none
  risk : Option (Option RiskMetrics) := none
  notifications : Option (List Notification) := none
  loading : Option Bool := none
  error : Option (Option String) := none
  lastUpdated : Option (Option Int) := none

/-- Object spread `{ ...state, ...payload }` for a SET_STATE action. -/
def applyPartial (state : AccountState) (p : PartialAccountState) : AccountState where
  balance := p.balance.getD state.balance
  positions := p.positions.getD state.positions
  orders := p.orders.getD state.orders
  trades := p.trades.getD state.trades
  performance := p.performance.getD state.performance
  performanceRange := p.performanceRange.getD state.performanceRange
  assetHistory := p.assetHistory.getD state.assetHistory
  assetHistoryRange := p.assetHistoryRange.getD state.assetHistoryRange
  tradeStats := p.tradeStats.getD state.tradeStats
  strategies := p.strategies.getD state.strategies
  risk := p.risk.getD state.risk
  notifications := p.notifications.getD state.notifications
  loading := p.loading.getD state.loading
  error := p.error.getD state.error
  lastUpdated := p.lastUpdated.getD state.lastUpdated

inductive AccountAction
  | setState (payload : PartialAccountState)
  | setLoading (payload : Bool)
  | setError (payload : Option String)
  | upsertBalances (payload : List Balance)
  | upsertPosition (payload : Position)
  | upsertOrder (payload : Order)
  | upsertTrade (payload : Trade)
  | setRisk (payload : RiskMetrics)
  | addNotification (payload : Notification)
  | setNotifications (payload : List Notification)
  | markNotification (id : String) (read : Bool)
  | setStrategies (payload : List Strategy)

/-- UPSERT_POSITION body: `findIndex` on the symbol, replace in place when
found, `push` at the end otherwise. -/
def upsertPositionList (p : Position) : List Position → List Position
  | [] => [p]
  | q :: qs => if q.symbol = p.symbol then p :: qs else q :: upsertPositionList p qs

/-- `[...].sort((a, b) => tb - ta)`: stable sort by descending timestamp. -/
def sortByTimeDesc (key : α → Int) (l : List α) : List α :=
  List.insertionSort (fun a b => key b ≤ key a) l

/-- UPSERT_ORDER body: drop the entry with the payload id, prepend the
payload, re-sort the whole collection by timestamp descending. -/
def upsertOrderList (o : Order) (l : List Order) : List Order :=
  sortByTimeDesc Order.timestamp (o :: l.filter fun x => x.id ≠ o.id)

/-- UPSERT_TRADE body, same shape as UPSERT_ORDER. -/
def upsertTradeList (tr : Trade) (l : List Trade) : List Trade :=
  sortByTimeDesc Trade.timestamp (tr :: l.filter fun x => x.id ≠ tr.id)

/-- `accountReducer` of AccountContext.tsx.  `nowTs` is the value
`new Date().getTime()` at the instant the reducer runs; the source stores
its ISO rendering into `lastUpdated`. -/
def accountReducer (nowTs : Int) (state : AccountState) : AccountAction → AccountState
  | .setState p => applyPartial state p
  | .setLoading b => { state with loading := b }
  | .setError e => { state with error := e }
  | .upsertBalances bs => { state with balance := bs, lastUpdated := some nowTs }
  | .upsertPosition p =>
      { state with positions := upsertPositionList p state.positions,
                   lastUpdated := some nowTs }
  | .upsertOrder o =>
      { state with orders := upsertOrderList o state.orders,
                   lastUpdated := some nowTs }
  | .upsertTrade tr =>
      { state with trades := upsertTradeList tr state.trades,
                   lastUpdated := some nowTs }
  | .setRisk r => { state with risk := some r, lastUpdated := some nowTs }
  | .addNotification n =>
      { state with notifications := (n :: state.notifications).take 50,
                   lastUpdated := some nowTs }
  | .setNotifications ns =>
      { state with notifications := ns, lastUpdated := some nowTs }
  | .markNotification id rd =>
      { state with
          notifications := state.notifications.map fun n =>
            if n.id = id then { n with read := rd } else n,
          lastUpdated := some nowTs }
  | .setStrategies ss =>
      { state with strategies := ss, lastUpdated := some nowTs }

/-- A dispatch trace: each event carries the clock value at which the
reducer ran and the dispatched action. -/
def applyEvents (s : AccountState) (evs : List (Int × AccountAction)) : AccountState :=
  evs.foldl (fun acc e => accountReducer e.1 acc e.2) s

/-- Generic form shared by UPSERT_ORDER and UPSERT_TRADE: `gid` reads the
identity field, `key` the timestamp. -/
def upsertKeyed (gid : α → β) (key : α → Int) (x : α) (l : List α) [DecidableEq β] : List α :=
  sortByTimeDesc key (x :: l.filter fun y => gid y ≠ gid x)

/-- Iterated upserts, oldest event first. -/
def foldUpsert (gid : α → β) (key : α → Int) [DecidableEq β] (ps : List α) (l : List α) : List α :=
  ps.foldl (fun acc o => upsertKeyed gid key o acc) l

/-- Erase the staleness field; two reducer runs at different clock values
may differ only here. -/
def stripLastUpdated (s : AccountState) : AccountState :=
  { s with lastUpdated := none }

/-! ## RealtimeTransport (src/frontend/src/utils/websocket.js)

AccountContext imports `../utils/websocket`; Vite resolves extensions in
its default order, which tries `.js` before `.ts`, so the module that
runs is the plain JavaScript WebSocketClient.  That client tracks no
manual-close flag and keeps no timer handle: every `onclose` arms a
fresh anonymous `setTimeout(() => this.connect(), 5000)`, and
`disconnect()` only calls `ws.close()`.  The client is modelled as a
timed state machine: `pendingReconnects` lists the absolute due times of
the armed timeout callbacks (they can accumulate, one per close event),
and `reconnects` counts how many have fired — each firing invokes
`connect()`. -/

def reconnectInterval : Int := 5000

structure WsClient where
  wsOpen : Bool
  pendingReconnects : List Int
  reconnects : Nat
deriving DecidableEq

/-- Spontaneous events delivered to the client: an underlying-socket
`close`, an `error` event, an armed reconnect timeout firing, and the
owner calling `disconnect()`. -/
inductive WsEvent
  | close
  | error
  | fire
  | disconnect
deriving DecidableEq

/-- One step of the JavaScript client at clock value `now`:
- `close` (the `onclose` handler): the socket is down; unconditionally
  arm one new timeout due `reconnectInterval` from now — no flag is
  consulted and nothing is cleared;
- `error` (the `onerror` handler): only emits to listeners;
- `fire`: an armed timeout whose due time has arrived runs `connect()`
  (counted in `reconnects`) and is consumed; at any other time nothing
  happens;
- `disconnect()`: only calls `ws.close()`, so the socket starts closing;
  the armed timeouts are untouched, and the close event this provokes
  arrives as a later `close` step of the trace. -/
def wsStep (now : Int) (c : WsClient) : WsEvent → WsClient
  | .close =>
      { c with wsOpen := false,
               pendingReconnects := (now + reconnectInterval) :: c.pendingReconnects }
  | .error => c
  | .fire =>
      if now ∈ c.pendingReconnects then
        { c with pendingReconnects := c.pendingReconnects.erase now,
                 reconnects := c.reconnects + 1 }
      else c
  | .disconnect => { c with wsOpen := false }

/-- A timed event trace folded through the client. -/
def wsSteps (c : WsClient) (evs : List (Int × WsEvent)) : WsClient :=
  evs.foldl (fun acc e => wsStep e.1 acc e.2) c

/-! ## Fallback dataset (src/frontend/src/services/mockData.ts)

`now` is the `new Date()` captured at module load; all timestamps of the
dataset are offsets from it. -/

def HOURS : Int := 60 * 60 * 1000

def DAYS : Int := 24 * HOURS

def hoursAgo (now hours : Int) : Int := now - hours * HOURS

def daysAgo (now days : Int) : Int := now - days * DAYS

def mockBalances : List Balance :=
  [ { asset := "USDT", available := 18000, hold := 2500, usdValue := 20500, allocation := 0.26 },
    { asset := "BTC", available := 0.85, hold := 0.1, usdValue := 29000, allocation := 0.29 },
    { asset := "ETH", available := 12.5, hold := 1.4, usdValue := 25000, allocation := 0.22 },
    { asset := "SOL", available := 320, hold := 40, usdValue := 12000, allocation := 0.13 },
    { asset := "USDC", available := 8000, hold := 0, usdValue := 8000, allocation := 0.1 } ]

def mockPositions (now : Int) : List Position :=
  [ { symbol := "BTC/USDT", direction := .LONG, size := 0.75, entryPrice := 36800,
      markPrice := 38250, pnl := { value := 1087.5, percentage := 0.0427 }, margin := 9200,
      strategy := some "AI Momentum", updatedAt := hoursAgo now 2 },
    { symbol := "ETH/USDT", direction := .SHORT, size := 8.5, entryPrice := 2680,
      markPrice := 2595, pnl := { value := 722.5, percentage := 0.0338 }, margin := 5200,
      strategy := some "Mean Reversion", updatedAt := hoursAgo now 4 },
    { symbol := "SOL/USDT", direction := .LONG, size := 250, entryPrice := 58.4,
      markPrice := 62.1, pnl := { value := 925, percentage := 0.0635 }, margin := 3600,
      strategy := some "AI Momentum", updatedAt := hoursAgo now 1 } ]

def baseOrders (now : Int) : List Order :=
  [ { id := "ORD-20240301-001", timestamp := hoursAgo now 2, symbol := "BTC/USDT",
      type := .LIMIT, side := .BUY, price := 38000, quantity := 0.6,
      filledQuantity := 0.6, status := .FILLED },
    { id := "ORD-20240301-002", timestamp := hoursAgo now 5, symbol := "ETH/USDT",
      type := .MARKET, side := .SELL, price := 2620, quantity := 5,
      filledQuantity := 5, status := .FILLED },
    { id := "ORD-20240229-003", timestamp := hoursAgo now 18, symbol := "SOL/USDT",
      type := .LIMIT, side := .BUY, price := 60.5, quantity := 200,
      filledQuantity := 150, status := .PARTIALLY_FILLED },
    { id := "ORD-20240228-004", timestamp := daysAgo now 1, symbol := "BTC/USDT",
      type := .STOP, side := .SELL, price := 35200, quantity := 0.4,
      filledQuantity := 0, status := .CANCELED },
    { id := "ORD-20240228-005", timestamp := daysAgo now 2, symbol := "ETH/USDT",
      type := .LIMIT, side := .BUY, price := 2550, quantity := 4,
      filledQuantity := 4, status := .FILLED },
    { id := "ORD-20240227-006", timestamp := daysAgo now 3, symbol := "SOL/USDT",
      type := .MARKET, side := .SELL, price := 59.2, quantity := 100,
      filledQuantity := 100, status := .FILLED },
    { id := "ORD-20240225-007", timestamp := daysAgo now 5, symbol := "BTC/USDT",
      type := .LIMIT, side := .SELL, price := 39400, quantity := 0.3,
      filledQuantity := 0, status := .OPEN },
    { id := "ORD-20240222-008", timestamp := daysAgo now 8, symbol := "SOL/USDT",
      type := .LIMIT, side := .BUY, price := 56.8, quantity := 180,
      filledQuantity := 180, status := .FILLED },
    { id := "ORD-20240218-009", timestamp := daysAgo now 12, symbol := "BTC/USDT",
      type := .MARKET, side := .BUY, price := 37250, quantity := 0.5,
      filledQuantity := 0.5, status := .FILLED },
    { id := "ORD-20240210-010", timestamp := daysAgo now 20, symbol := "ETH/USDT",
      type := .LIMIT, side := .SELL, price := 2785, quantity := 3,
      filledQuantity := 0, status := .CANCELED },
    { id := "ORD-20240121-011", timestamp := daysAgo now 39, symbol := "SOL/USDT",
      type := .STOP_LIMIT, side := .SELL, price := 54.2, quantity := 200,
      filledQuantity := 200, status := .FILLED },
    { id := "ORD-20231228-012", timestamp := daysAgo now 82, symbol := "BTC/USDT",
      type := .LIMIT, side := .BUY, price := 34800, quantity := 0.8,
      filledQuantity := 0.8, status := .FILLED } ]

def baseTrades (now : Int) : List Trade :=
  [ { id := "TRD-6001", orderId := "ORD-20240301-001", timestamp := hoursAgo now 2,
      symbol := "BTC/USDT", side := .BUY, price := 37980, quantity := 0.6,
      fee := 5.2, strategy := some "AI Momentum" },
    { id := "TRD-6002", orderId := "ORD-20240301-002", timestamp := hoursAgo now 5,
      symbol := "ETH/USDT", side := .SELL, price := 2624, quantity := 5,
      fee := 3.8, strategy := some "Mean Reversion" },
    { id := "TRD-6003", orderId := "ORD-20240229-003", timestamp := hoursAgo now 18,
      symbol := "SOL/USDT", side := .BUY, price := 60.2, quantity := 150,
      fee := 4.1, strategy := some "AI Momentum" },
    { id := "TRD-6004", orderId := "ORD-20240228-005", timestamp := daysAgo now 2,
      symbol := "ETH/USDT", side := .BUY, price := 2548, quantity := 4,
      fee := 2.7, strategy := some "AI Momentum" },
    { id := "TRD-6005", orderId := "ORD-20240227-006", timestamp := daysAgo now 3,
      symbol := "SOL/USDT", side := .SELL, price := 59.3, quantity := 100,
      fee := 2.9, strategy := some "Scalper" },
    { id := "TRD-6006", orderId := "ORD-20240222-008", timestamp := daysAgo now 8,
      symbol := "SOL/USDT", side := .BUY, price := 56.8, quantity := 180,
      fee := 4.8, strategy := some "AI Momentum" },
    { id := "TRD-6007", orderId := "ORD-20240218-009", timestamp := daysAgo now 12,
      symbol := "BTC/USDT", side := .BUY, price := 37280, quantity := 0.5,
      fee := 4.2, strategy := some "Mean Reversion" },
    { id := "TRD-6008", orderId := "ORD-20240210-010", timestamp := daysAgo now 20,
      symbol := "ETH/USDT", side := .SELL, price := 2780, quantity := 3,
      fee := 2.5, strategy := some "Scalper" },
    { id := "TRD-6009", orderId := "ORD-20240121-011", timestamp := daysAgo now 39,
      symbol := "SOL/USDT", side := .SELL, price := 54.3, quantity := 200,
      fee := 5.4, strategy := some "AI Momentum" },
    { id := "TRD-6010", orderId := "ORD-20231228-012", timestamp := daysAgo now 82,
      symbol := "BTC/USDT", side := .BUY, price := 34820, quantity := 0.8,
      fee := 5.6, strategy := some "AI Momentum" } ]

/-- The `performanceByRange` record of mockData.ts, as a total function on
the range keys. -/
def performanceByRange : PerformanceRange → PerformanceMetrics
  | .TODAY =>
      { totalReturn := 0.017, annualizedReturn := 0.42, maxDrawdown := 0.04,
        sharpeRatio := 2.8, winRate := 0.68, averageWin := 420, averageLoss := -260,
        totalTrades := 6, winningTrades := 4, losingTrades := 2,
        profitLossToday := 540, profitLossTotal := 39680 }
  | .WEEK =>
      { totalReturn := 0.036, annualizedReturn := 0.38, maxDrawdown := 0.07,
        sharpeRatio := 2.45, winRate := 0.66, averageWin := 480, averageLoss := -310,
        totalTrades := 24, winningTrades := 16, losingTrades := 8,
        profitLossToday := 540, profitLossTotal := 39680 }
  | .MONTH =>
      { totalReturn := 0.078, annualizedReturn := 0.41, maxDrawdown := 0.11,
        sharpeRatio := 2.32, winRate := 0.63, averageWin := 510, averageLoss := -340,
        totalTrades := 92, winningTrades := 58, losingTrades := 34,
        profitLossToday := 540, profitLossTotal := 39680 }
  | .YEAR =>
      { totalReturn := 0.312, annualizedReturn := 0.43, maxDrawdown := 0.18,
        sharpeRatio := 2.58, winRate := 0.64, averageWin := 495, averageLoss := -330,
        totalTrades := 860, winningTrades := 552, losingTrades := 308,
        profitLossToday := 540, profitLossTotal := 39680 }
  | .ALL =>
      { totalReturn := 0.412, annualizedReturn := 0.37, maxDrawdown := 0.21,
        sharpeRatio := 2.34, winRate := 0.61, averageWin := 470, averageLoss := -320,
        totalTrades := 1350, winningTrades := 824, losingTrades := 526,
        profitLossToday := 540, profitLossTotal := 39680 }

/-- Fallback payloads that mockData.ts computes with floating-point
trigonometry (Math.sin / Math.cos plus toFixed rounding): the hourly
heatmap of the trade statistics and the generated asset-history series.
The spec treats analytics payloads as opaque values produced upstream, so
they enter the model as parameters rather than as re-derived numerics. -/
structure FloatGenData where
  hourlyHeatmap : List HeatmapCell
  assetHistory : TimeRange → List AssetHistoryPoint

def mockTradeStatistics (fd : FloatGenData) : TradeStatistics where
  byPair :=
    [ { symbol := "BTC/USDT", trades := 420, pnl := 16800, winRate := 0.64 },
      { symbol := "ETH/USDT", trades := 360, pnl := 13200, winRate := 0.61 },
      { symbol := "SOL/USDT", trades := 210, pnl := 9800, winRate := 0.66 },
      { symbol := "BNB/USDT", trades := 140, pnl := 6200, winRate := 0.58 } ]
  profitDistribution :=
    [ { range := "< -5%", count := 42 },
      { range := "-5% ~ 0%", count := 148 },
      { range := "0% ~ 5%", count := 286 },
      { range := "5% ~ 10%", count := 178 },
      { range := "> 10%", count := 64 } ]
  holdingDurations :=
    [ { bucket := "< 1h", count := 168, avgPnl := 0.014 },
      { bucket := "1h - 4h", count := 214, avgPnl := 0.022 },
      { bucket := "4h - 24h", count := 180, avgPnl := 0.028 },
      { bucket := "> 24h", count := 128, avgPnl := 0.034 } ]
  hourlyHeatmap := fd.hourlyHeatmap
  strategyComparison :=
    [ { strategy := "AI Momentum", pnl := 19800, winRate := 0.66, sharpe := 2.8, trades := 520 },
      { strategy := "Mean Reversion", pnl := 12800, winRate := 0.58, sharpe := 2.2, trades := 360 },
      { strategy := "Scalper", pnl := 6200, winRate := 0.63, sharpe := 1.9, trades := 240 },
      { strategy := "Grid Bot", pnl := 3400, winRate := 0.55, sharpe := 1.5, trades := 180 } ]
  totals := { volume := 18600000, fees := 11240 }

def mockStrategies (now : Int) : List Strategy :=
  [ { id := "strat-001", name := "AI Momentum", status := .running, pnl := 19800,
      winRate := 0.66, trades := 520,
      description := some "Deep learning momentum strategy focusing on BTC and SOL.",
      lastUpdated := hoursAgo now 1 },
    { id := "strat-002", name := "Mean Reversion", status := .paused, pnl := 12800,
      winRate := 0.58, trades := 360,
      description := some "Short-term mean reversion on ETH perpetuals.",
      lastUpdated := hoursAgo now 7 },
    { id := "strat-003", name := "Scalper", status := .stopped, pnl := 6200,
      winRate := 0.63, trades := 240,
      description := some "High frequency scalping strategy on major pairs.",
      lastUpdated := daysAgo now 2 } ]

def mockRiskMetrics (now : Int) : RiskMetrics where
  currentExposure := 0.46
  maxExposure := 0.75
  leverage := 4.2
  maxLeverage := 8
  marginUtilization := 0.38
  var := 0.062
  riskEvents :=
    [ { id := "risk-evt-001", timestamp := hoursAgo now 3, rule := "BTC drawdown > 3%",
        severity := .warning,
        details := "BTC price dipped 3.5% within 30 minutes. Positions hedged automatically." },
      { id := "risk-evt-002", timestamp := daysAgo now 1, rule := "Leverage limit breach",
        severity := .info,
        details := "SOL leverage reached 5.5x during breakout and was reduced to 4x." } ]
  alerts :=
    [ { id := "alert-001", type := "price", description := "BTC drawdown exceeds 5%",
        threshold := some 0.05, enabled := true },
      { id := "alert-002", type := "margin", description := "Margin utilization exceeds 60%",
        threshold := some 0.6, enabled := true },
      { id := "alert-003", type := "strategy", description := "Strategy drawdown exceeds 12%",
        threshold := some 0.12, enabled := false } ]

def mockNotifications (now : Int) : List Notification :=
  [ { id := "notif-001", category := .order, title := "订单已成交",
      message := "BTC/USDT 限价买单 0.6 BTC @ 38,000 已完全成交。",
      timestamp := hoursAgo now 2, read := false, severity := .success },
    { id := "notif-002", category := .price, title := "价格告警",
      message := "ETH/USDT 价格在 30 分钟内上涨 2.5%。",
      timestamp := hoursAgo now 5, read := false, severity := .warning },
    { id := "notif-003", category := .strategy, title := "策略状态更新",
      message := "AI Momentum 策略今日收益率 +1.7%。",
      timestamp := hoursAgo now 8, read := true, severity := .info },
    { id := "notif-004", category := .system, title := "系统公告",
      message := "系统将在周末进行维护，预计停机 1 小时。",
      timestamp := daysAgo now 1, read := true, severity := .info } ]

/-- `withinRange` of mockData.ts.  A bound is `some` when the filter
field is present and truthy; its value is the parsed Date.getTime. -/
def withinRange (value : Int) (startB endB : Option Int) : Bool :=
  (match startB with
   | some s => !(value < s)
   | none => true) &&
  (match endB with
   | some e => !(value > e)
   | none => true)

def orderStatusName : OrderStatus → String
  | .FILLED => "FILLED"
  | .PARTIALLY_FILLED => "PARTIALLY_FILLED"
  | .CANCELED => "CANCELED"
  | .OPEN => "OPEN"
  | .REJECTED => "REJECTED"

def sideName : OrderSide → String
  | .BUY => "BUY"
  | .SELL => "SELL"

/-- JS truthiness of an optional string filter field: absent or the empty
string are falsy, every other string is truthy. -/
def strTruthy : Option String → Bool
  | none => false
  | some s => s ≠ ""

/-- One guard of the filter chains of getMockOrders / getMockTrades:
`filters?.field && filters.field !== 'ALL' && entry.field !== filters.field`. -/
def strFilterFails (fopt : Option String) (v : String) : Bool :=
  strTruthy fopt && fopt != some "ALL" && some v != fopt

/-- The body of the getMockOrders filter callback. -/
def orderPasses (filters : Option OrderFilters) (order : Order) : Bool :=
  if strFilterFails (filters.bind OrderFilters.status) (orderStatusName order.status) then
    false
  else if strFilterFails (filters.bind OrderFilters.symbol) order.symbol then
    false
  else if strFilterFails (filters.bind OrderFilters.side) (sideName order.side) then
    false
  else if !withinRange order.timestamp (filters.bind OrderFilters.start)
      (filters.bind OrderFilters.endTime) then
    false
  else
    true

def getMockOrders (now : Int) (filters : Option OrderFilters) : List Order :=
  (baseOrders now).filter (orderPasses filters)

/-- The body of the getMockTrades filter callback. -/
def tradePasses (filters : Option TradeFilters) (trade : Trade) : Bool :=
  if strFilterFails (filters.bind TradeFilters.symbol) trade.symbol then
    false
  else if strFilterFails (filters.bind TradeFilters.side) (sideName trade.side) then
    false
  else if !withinRange trade.timestamp (filters.bind TradeFilters.start)
      (filters.bind TradeFilters.endTime) then
    false
  else
    true

def getMockTrades (now : Int) (filters : Option TradeFilters) : List Trade :=
  (baseTrades now).filter (tradePasses filters)

/-- `performanceByRange[range] ?? performanceByRange.ALL`; the record is
total, so the nullish fallback never applies. -/
def getMockPerformance (range : PerformanceRange) : PerformanceMetrics :=
  performanceByRange range

/-- The generated series is floating-point trigonometry; see
`FloatGenData`. -/
def getMockAssetHistory (fd : FloatGenData) (range : TimeRange) : List AssetHistoryPoint :=
  fd.assetHistory range

def getMockTradeStatistics (fd : FloatGenData) (_filters : Option TradeFilters) : TradeStatistics :=
  mockTradeStatistics fd

/-! ## DataAccessLayer (src/frontend/src/services/account.ts)

Each remote call is represented by the outcome the network would deliver:
`Except.ok` a typed body, `Except.error` any failure (network error,
non-success status, deserialization error). -/

structure RemoteApi where
  balance : Except String (List Balance)
  positions : Except String (List Position)
  orders : Option OrderFilters → Except String (List Order)
  trades : Option TradeFilters → Except String (List Trade)
  performance : PerformanceRange → Except String PerformanceMetrics
  assetHistory : TimeRange → Except String (List AssetHistoryPoint)
  tradeStats : Option TradeFilters → Except String TradeStatistics
  strategies : Except String (List Strategy)
  updateStrategy : String → StrategyStatus → Except String (List Strategy)
  risk : Except String RiskMetrics
  notifications : Except String (List Notification)

/-- The module-level mutable caches of account.ts. -/
structure ServiceState where
  strategyCache : List Strategy
  riskCache : RiskMetrics
deriving DecidableEq

/-- Cache contents at module load: structural copies of the mock data. -/
def initialServiceState (now : Int) : ServiceState where
  strategyCache := mockStrategies now
  riskCache := mockRiskMetrics now

/-- `safeRequest`: return the remote body, or the fallback on any
failure; the failure is logged and never propagated. -/
def safeRequest (r : Except String T) (fallback : Unit → T) : T :=
  match r with
  | .ok v => v
  | .error _ => fallback ()

def getAccountBalance (env : RemoteApi) : List Balance :=
  safeRequest env.balance fun _ => mockBalances

def getPositions (env : RemoteApi) (now : Int) : List Position :=
  safeRequest env.positions fun _ => mockPositions now

def getOrderHistory (env : RemoteApi) (now : Int) (filters : Option OrderFilters) : List Order :=
  safeRequest (env.orders filters) fun _ => getMockOrders now filters

def getTradeHistory (env : RemoteApi) (now : Int) (filters : Option TradeFilters) : List Trade :=
  safeRequest (env.trades filters) fun _ => getMockTrades now filters

def getPerformanceMetrics (env : RemoteApi) (range : PerformanceRange) : PerformanceMetrics :=
  safeRequest (env.performance range) fun _ => getMockPerformance range

def getAssetHistory (env : RemoteApi) (fd : FloatGenData) (range : TimeRange) : List AssetHistoryPoint :=
  safeRequest (env.assetHistory range) fun _ => getMockAssetHistory fd range

def getTradeStatistics (env : RemoteApi) (fd : FloatGenData) (filters : Option TradeFilters) : TradeStatistics :=
  safeRequest (env.tradeStats filters) fun _ => getMockTradeStatistics fd filters

/-- `getStrategies` refreshes the cache on success and serves the cache
as fallback. -/
def getStrategies (env : RemoteApi) (svc : ServiceState) : List Strategy × ServiceState :=
  match env.strategies with
  | .ok v => (v, { svc with strategyCache := v })
  | .error _ => (svc.strategyCache, svc)

/-- `updateStrategyStatus`: POST the new status; on failure apply the
status change to the cached list locally (stamping `lastUpdated`). -/
def updateStrategyStatus (env : RemoteApi) (svc : ServiceState) (now : Int)
    (strategyId : String) (status : StrategyStatus) : List Strategy × ServiceState :=
  match env.updateStrategy strategyId status with
  | .ok v => (v, { svc with strategyCache := v })
  | .error _ =>
      let sc := svc.strategyCache.map fun strategy =>
        if strategy.id = strategyId then
          { strategy with status := status, lastUpdated := now }
        else strategy
      (sc, { svc with strategyCache := sc })

def getRiskMetrics (env : RemoteApi) (svc : ServiceState) : RiskMetrics × ServiceState :=
  match env.risk with
  | .ok v => (v, { svc with riskCache := v })
  | .error _ => (svc.riskCache, svc)

def setRiskCache (svc : ServiceState) (nextRisk : RiskMetrics) : ServiceState :=
  { svc with riskCache := nextRisk }

def getNotifications (env : RemoteApi) (now : Int) : List Notification :=
  safeRequest env.notifications fun _ => mockNotifications now

/-- The ten per-resource bodies returned by `getInitialAccountState`. -/
structure InitialData where
  balance : List Balance
  positions : List Position
  orders : List Order
  trades : List Trade
  performance : PerformanceMetrics
  assetHistory : List AssetHistoryPoint
  tradeStats : TradeStatistics
  strategies : List Strategy
  risk : RiskMetrics
  notifications : List Notification
deriving DecidableEq

/-- `getInitialAccountState`: all ten fetches (the Promise.all of
account.ts), no filters, performance range ALL, asset-history range 1M.
The runtime is single-threaded, so the parallel fetches are equivalent to
this sequential composition; the cache is threaded through the two
cache-touching calls. -/
def getInitialAccountState (env : RemoteApi) (svc : ServiceState) (now : Int)
    (fd : FloatGenData) : InitialData × ServiceState :=
  let balance := getAccountBalance env
  let positions := getPositions env now
  let orders := getOrderHistory env now none
  let trades := getTradeHistory env now none
  let performance := getPerformanceMetrics env .ALL
  let assetHistory := getAssetHistory env fd .oneM
  let tradeStats := getTradeStatistics env fd none
  let (strategies, svc1) := getStrategies env svc
  let (risk, svc2) := getRiskMetrics env svc1
  let notifications := getNotifications env now
  ({ balance, positions, orders, trades, performance, assetHistory,
     tradeStats, strategies, risk, notifications }, svc2)

/-! ## SyncController glue (AccountProvider callbacks) -/

/-- `loadInitialData` of AccountContext.tsx: set loading, fetch the
initial snapshot (which cannot reject — every resource degrades to its
fallback inside the data-access layer, so the catch branch is dead),
dispatch one SET_STATE carrying the snapshot plus the reset UI fields,
then clear loading in the finally block.  `t` is the dispatch-time
clock. -/
def loadInitialData (env : RemoteApi) (svc : ServiceState) (now : Int)
    (fd : FloatGenData) (t : Int) (s : AccountState) : AccountState × ServiceState :=
  let s1 := accountReducer t s (.setLoading true)
  let (d, svc1) := getInitialAccountState env svc now fd
  let payload : PartialAccountState :=
    { balance := some d.balance
      positions := some d.positions
      orders := some d.orders
      trades := some d.trades
      performance := some (some d.performance)
      assetHistory := some d.assetHistory
      tradeStats := some (some d.tradeStats)
      strategies := some d.strategies
      risk := some (some d.risk)
      notifications := some d.notifications
      performanceRange := some .ALL
      assetHistoryRange := some .oneM
      loading := some false
      error := some (none : Option String)
      lastUpdated := some (some t) }
  let s2 := accountReducer t s1 (.setState payload)
  let s3 := accountReducer t s2 (.setLoading false)
  (s3, svc1)

/-- `strategy?.status === 'running' ? 'stopped' : 'running'` over the
result of `find`. -/
def nextStatusFor (strategies : List Strategy) (strategyId : String) : StrategyStatus :=
  match strategies.find? fun item => item.id = strategyId with
  | some strategy => if strategy.status = .running then .stopped else .running
  | none => .running

/-- `toggleStrategyStatus` of AccountContext.tsx: compute the opposite
status from the local list, call the remote mutation, replace the
strategies slice with the authoritative response. -/
def toggleStrategyStatus (env : RemoteApi) (svc : ServiceState) (now t : Int)
    (s : AccountState) (strategyId : String) : AccountState × ServiceState :=
  let nextStatus := nextStatusFor s.strategies strategyId
  let (updatedStrategies, svc1) := updateStrategyStatus env svc now strategyId nextStatus
  (accountReducer t s (.setStrategies updatedStrategies), svc1)

/-- Typed realtime frames; `other` stands for any frame whose `type`
discriminant is none of the six known values (the dispatch switch falls
through to its default branch on those). -/
inductive RealtimeMessage
  | balanceUpdate (payload : List Balance)
  | positionUpdate (payload : Position)
  | orderUpdate (payload : Order)
  | tradeUpdate (payload : Trade)
  | riskUpdate (payload : RiskMetrics)
  | notification (payload : Notification)
  | other (type : String)

/-- `handleRealtimeMessage` of AccountContext.tsx: one store action per
message variant; `risk_update` also writes the service-layer risk cache;
unrecognized discriminants dispatch nothing. -/
def handleRealtimeMessage (t : Int) (svc : ServiceState) (msg : RealtimeMessage)
    (s : AccountState) : AccountState × ServiceState :=
  match msg with
  | .balanceUpdate payload => (accountReducer t s (.upsertBalances payload), svc)
  | .positionUpdate payload => (accountReducer t s (.upsertPosition payload), svc)
  | .orderUpdate payload => (accountReducer t s (.upsertOrder payload), svc)
  | .tradeUpdate payload => (accountReducer t s (.upsertTrade payload), svc)
  | .riskUpdate payload => (accountReducer t s (.setRisk payload), setRiskCache svc payload)
  | .notification payload => (accountReducer t s (.addNotification payload), svc)
  | .other _ => (s, svc)

/-! ## Concrete sample inputs, used by witnesses and counterexamples -/

def cexOrderA : Order :=
  { id := "ord-a", timestamp := 10, symbol := "BTC/USDT", type := .LIMIT, side := .BUY,
    price := 100, quantity := 1, filledQuantity := 0, status := .OPEN }

def cexOrderB : Order :=
  { id := "ord-b", timestamp := 10, symbol := "ETH/USDT", type := .MARKET, side := .SELL,
    price := 200, quantity := 2, filledQuantity := 0, status := .OPEN }

def cexTradeA : Trade :=
  { id := "trd-a", orderId := "ord-a", timestamp := 7, symbol := "BTC/USDT", side := .BUY,
    price := 100, quantity := 1, fee := 0.1 }

def cexTradeB : Trade :=
  { id := "trd-b", orderId := "ord-b", timestamp := 9, symbol := "ETH/USDT", side := .SELL,
    price := 200, quantity := 2, fee := 0.2 }

def sampleNotification : Notification :=
  { id := "notif-x", category := .system, title := "t", message := "m",
    timestamp := 0, read := false, severity := .info }

def posBtcA : Position :=
  { symbol := "BTC/USDT", direction := .LONG, size := 1, entryPrice := 36000,
    markPrice := 38000, pnl := { value := 2000, percentage := 0.05 }, margin := 9000,
    updatedAt := 0 }

def posBtcB : Position :=
  { symbol := "BTC/USDT", direction := .LONG, size := 1, entryPrice := 36000,
    markPrice := 39000, pnl := { value := 3000, percentage := 0.08 }, margin := 9000,
    updatedAt := 1 }

def posBtcDup : Position :=
  { symbol := "BTC/USDT", direction := .SHORT, size := 2, entryPrice := 37000,
    markPrice := 37500, pnl := { value := -1000, percentage := -0.01 }, margin := 7000,
    updatedAt := 2 }

/-- A state whose positions list already carries two entries for the same
symbol (reachable only from outside the reducer, but the claims quantify
over every state). -/
def dupPositionsState : AccountState :=
  { initialState with positions := [posBtcDup, posBtcDup] }

/-- A remote API in which every call fails. -/
def failEnv : RemoteApi where
  balance := .error "network"
  positions := .error "network"
  orders := fun _ => .error "network"
  trades := fun _ => .error "network"
  performance := fun _ => .error "network"
  assetHistory := fun _ => .error "network"
  tradeStats := fun _ => .error "network"
  strategies := .error "network"
  updateStrategy := fun _ _ => .error "network"
  risk := .error "network"
  notifications := .error "network"

def emptyFloatData : FloatGenData where
  hourlyHeatmap := []
  assetHistory := fun _ => []

/-- A freshly-connected client in the Open state. -/
def sampleOpenClient : WsClient where
  wsOpen := true
  pendingReconnects := []
  reconnects := 0

/-- Trade filters whose symbol field is present but empty. -/
def emptySymbolFilters : TradeFilters :=
  { symbol := some "" }

/-- A remote call fails: it never resolves to a typed body. -/
def Failing (r : Except String T) : Prop := ∀ v, r ≠ Except.ok v

/-- Every remote call of the data-access layer fails. -/
def allRequestsFail (env : RemoteApi) : Prop :=
  Failing env.balance ∧
  Failing env.positions ∧
  (∀ f, Failing (env.orders f)) ∧
  (∀ f, Failing (env.trades f)) ∧
  (∀ r, Failing (env.performance r)) ∧
  (∀ r, Failing (env.assetHistory r)) ∧
  (∀ f, Failing (env.tradeStats f)) ∧
  Failing env.strategies ∧
  (∀ i st, Failing (env.updateStrategy i st)) ∧
  Failing env.risk ∧
  Failing env.notifications

/-! ## Helper lemmas: the stable descending sort and keyed upserts -/

theorem sortByTimeDesc_perm (key : α → Int) (l : List α) :
    List.Perm (sortByTimeDesc key l) l :=
  List.perm_insertionSort _ l

theorem sortByTimeDesc_pairwise (key : α → Int) (l : List α) :
    (sortByTimeDesc key l).Pairwise fun a b => key b ≤ key a := by
  haveI : IsTotal α fun a b => key b ≤ key a := ⟨fun a b => le_total (key b) (key a)⟩
  haveI : IsTrans α fun a b => key b ≤ key a := ⟨fun a b c h1 h2 => le_trans h2 h1⟩
  exact List.sorted_insertionSort _ l

theorem mem_sortByTimeDesc {key : α → Int} {l : List α} {x : α} :
    x ∈ sortByTimeDesc key l ↔ x ∈ l :=
  List.mem_insertionSort _

theorem mem_upsertKeyed [DecidableEq β] {gid : α → β} {key : α → Int} {x y : α} {l : List α} :
    y ∈ upsertKeyed gid key x l ↔ y = x ∨ (y ∈ l ∧ gid y ≠ gid x) := by
  unfold upsertKeyed
  rw [mem_sortByTimeDesc]
  simp [List.mem_filter]

theorem self_mem_upsertKeyed [DecidableEq β] {gid : α → β} {key : α → Int} (x : α) (l : List α) :
    x ∈ upsertKeyed gid key x l :=
  mem_upsertKeyed.2 (Or.inl rfl)

theorem upsertKeyed_pairwise_ne [DecidableEq β] {gid : α → β} (key : α → Int) (x : α)
    {l : List α} (h : l.Pairwise fun a b => gid a ≠ gid b) :
    (upsertKeyed gid key x l).Pairwise fun a b => gid a ≠ gid b := by
  unfold upsertKeyed
  rw [(sortByTimeDesc_perm key _).pairwise_iff fun h' => Ne.symm h']
  refine List.Pairwise.cons ?_ (h.filter _)
  intro y hy
  have hne := (List.mem_filter.1 hy).2
  simp only [decide_not, Bool.not_eq_true', decide_eq_false_iff_not] at hne
  exact fun hx => hne (by rw [hx])

theorem foldUpsert_cons [DecidableEq β] (gid : α → β) (key : α → Int) (p : α) (ps : List α)
    (l : List α) :
    foldUpsert gid key (p :: ps) l = foldUpsert gid key ps (upsertKeyed gid key p l) := rfl

theorem foldUpsert_sorted [DecidableEq β] (gid : α → β) (key : α → Int) :
    ∀ ps : List α, ps ≠ [] → ∀ l : List α,
      (foldUpsert gid key ps l).Pairwise fun a b => key b ≤ key a := by
  intro ps
  induction ps with
  | nil => exact fun h => absurd rfl h
  | cons p ps ih =>
      intro _ l
      rw [foldUpsert_cons]
      cases ps with
      | nil => exact sortByTimeDesc_pairwise key _
      | cons q qs => exact ih (by simp) _

theorem foldUpsert_pairwise_ne [DecidableEq β] (gid : α → β) (key : α → Int) :
    ∀ ps l : List α, (l.Pairwise fun a b => gid a ≠ gid b) →
      (foldUpsert gid key ps l).Pairwise fun a b => gid a ≠ gid b := by
  intro ps
  induction ps with
  | nil => exact fun l h => h
  | cons p ps ih =>
      intro l h
      rw [foldUpsert_cons]
      exact ih _ (upsertKeyed_pairwise_ne key p h)

theorem mem_foldUpsert_of_mem [DecidableEq β] (gid : α → β) (key : α → Int) :
    ∀ (ps l : List α) (x : α), x ∈ l → (∀ q ∈ ps, gid q ≠ gid x) →
      x ∈ foldUpsert gid key ps l := by
  intro ps
  induction ps with
  | nil => exact fun l x hx _ => hx
  | cons p ps ih =>
      intro l x hx h
      rw [foldUpsert_cons]
      refine ih _ x ?_ fun q hq => h q (List.mem_cons_of_mem p hq)
      exact mem_upsertKeyed.2 (Or.inr ⟨hx, Ne.symm (h p (List.mem_cons_self p ps))⟩)

theorem mem_foldUpsert_origin [DecidableEq β] (gid : α → β) (key : α → Int) :
    ∀ (ps l : List α) (y : α), y ∈ foldUpsert gid key ps l → y ∈ ps ∨ y ∈ l := by
  intro ps
  induction ps with
  | nil => exact fun l y hy => Or.inr hy
  | cons p ps ih =>
      intro l y hy
      rw [foldUpsert_cons] at hy
      rcases ih _ y hy with hmem | hmem
      · exact Or.inl (List.mem_cons_of_mem p hmem)
      · rcases mem_upsertKeyed.1 hmem with rfl | ⟨hl, _⟩
        · exact Or.inl (List.mem_cons_self _ _)
        · exact Or.inr hl

/-- Last write wins: the entry found last in the payload sequence for a
given identity is in the folded collection and is its only entry with
that identity. -/
theorem foldUpsert_lww [DecidableEq β] (gid : α → β) (key : α → Int) :
    ∀ (ps l : List α) (i : β) (p : α),
      (ps.reverse.find? fun q => gid q = i) = some p →
      p ∈ foldUpsert gid key ps l ∧
        ∀ y ∈ foldUpsert gid key ps l, gid y = i → y = p := by
  intro ps
  induction ps with
  | nil => intro l i p h; simp at h
  | cons q qs ih =>
      intro l i p h
      rw [List.reverse_cons, List.find?_append] at h
      rw [foldUpsert_cons]
      cases hq : qs.reverse.find? fun r => gid r = i with
      | some pLast =>
          rw [hq, Option.or_some] at h
          cases h
          exact ih _ i p hq
      | none =>
          rw [hq, Option.none_or] at h
          have hnotin : ∀ r ∈ qs, ¬ gid r = i := by
            intro r hr
            have := List.find?_eq_none.1 hq r (List.mem_reverse.2 hr)
            simpa using this
          by_cases hgq : gid q = i
          · rw [List.find?_cons_of_pos _ (by simpa using hgq)] at h
            cases h
            constructor
            · exact mem_foldUpsert_of_mem gid key qs _ q (self_mem_upsertKeyed q l)
                fun r hr he => hnotin r hr (by rw [he, hgq])
            · intro y hy hgy
              rcases mem_foldUpsert_origin gid key qs _ y hy with hmem | hmem
              · exact absurd hgy (hnotin y hmem)
              · rcases mem_upsertKeyed.1 hmem with rfl | ⟨_, hne⟩
                · rfl
                · exact absurd (hgy.trans hgq.symm) hne
          · rw [List.find?_cons_of_neg _ (by simpa using hgq), List.find?_nil] at h
            cases h

/-! ## Helper lemmas: bridging reducer traces to list folds -/

theorem upsertOrderList_eq (o : Order) (l : List Order) :
    upsertOrderList o l = upsertKeyed Order.id Order.timestamp o l := rfl

theorem upsertTradeList_eq (tr : Trade) (l : List Trade) :
    upsertTradeList tr l = upsertKeyed Trade.id Trade.timestamp tr l := rfl

theorem applyEvents_upsertOrder_orders :
    ∀ (evs : List (Int × Order)) (s : AccountState),
      (applyEvents s (evs.map fun e => (e.1, AccountAction.upsertOrder e.2))).orders
        = foldUpsert Order.id Order.timestamp (evs.map Prod.snd) s.orders := by
  intro evs
  induction evs with
  | nil => intro s; rfl
  | cons e evs ih =>
      intro s
      have hstep :
          applyEvents s (((e.1, AccountAction.upsertOrder e.2)) ::
              evs.map fun e => (e.1, AccountAction.upsertOrder e.2))
            = applyEvents (accountReducer e.1 s (.upsertOrder e.2))
                (evs.map fun e => (e.1, AccountAction.upsertOrder e.2)) := rfl
      rw [List.map_cons, hstep, ih]
      rfl

theorem applyEvents_upsertTrade_trades :
    ∀ (evs : List (Int × Trade)) (s : AccountState),
      (applyEvents s (evs.map fun e => (e.1, AccountAction.upsertTrade e.2))).trades
        = foldUpsert Trade.id Trade.timestamp (evs.map Prod.snd) s.trades := by
  intro evs
  induction evs with
  | nil => intro s; rfl
  | cons e evs ih =>
      intro s
      have hstep :
          applyEvents s (((e.1, AccountAction.upsertTrade e.2)) ::
              evs.map fun e => (e.1, AccountAction.upsertTrade e.2))
            = applyEvents (accountReducer e.1 s (.upsertTrade e.2))
                (evs.map fun e => (e.1, AccountAction.upsertTrade e.2)) := rfl
      rw [List.map_cons, hstep, ih]
      rfl

/-- Only the first `n` elements of the right summand matter under an
outer `take n`. -/
theorem take_append_absorb (a b : List γ) (n : Nat) :
    (a ++ b.take n).take n = (a ++ b).take n := by
  rw [List.take_append_eq_append_take, List.take_append_eq_append_take,
      List.take_take, Nat.min_eq_left (Nat.sub_le n a.length)]

/-- Folding ADD_NOTIFICATION events, starting from a capped list: the
result is the capped concatenation of the reversed payloads with the
prior entries. -/
theorem addNotification_fold :
    ∀ (evs : List (Int × Notification)) (s : AccountState),
      s.notifications.length ≤ 50 →
      (applyEvents s (evs.map fun e => (e.1, AccountAction.addNotification e.2))).notifications
        = ((evs.map Prod.snd).reverse ++ s.notifications).take 50 := by
  intro evs
  induction evs with
  | nil =>
      intro s h
      exact (List.take_of_length_le h).symm
  | cons e evs ih =>
      intro s h
      have hstep :
          applyEvents s (((e.1, AccountAction.addNotification e.2)) ::
              evs.map fun e => (e.1, AccountAction.addNotification e.2))
            = applyEvents (accountReducer e.1 s (.addNotification e.2))
                (evs.map fun e => (e.1, AccountAction.addNotification e.2)) := rfl
      have hnotif : (accountReducer e.1 s (.addNotification e.2)).notifications
          = (e.2 :: s.notifications).take 50 := rfl
      have hlen : (accountReducer e.1 s (.addNotification e.2)).notifications.length ≤ 50 := by
        rw [hnotif, List.length_take]
        exact Nat.min_le_left _ _
      rw [List.map_cons, hstep, ih _ hlen, hnotif, take_append_absorb]
      simp [List.append_assoc]

/-- Mapping a function that fixes every member is the identity. -/
theorem map_mem_id {f : γ → γ} :
    ∀ l : List γ, (∀ x ∈ l, f x = x) → l.map f = l := by
  intro l
  induction l with
  | nil => intro _; rfl
  | cons a l ih =>
      intro h
      rw [List.map_cons, h a (List.mem_cons_self a l), ih fun x hx => h x (List.mem_cons_of_mem a hx)]

/-! ## Helper lemmas: position upserts and symbol counts -/

theorem self_mem_upsertPositionList (b : Position) :
    ∀ l : List Position, b ∈ upsertPositionList b l := by
  intro l
  induction l with
  | nil => exact List.mem_cons_self _ _
  | cons q qs ih =>
      rw [upsertPositionList]
      by_cases hq : q.symbol = b.symbol
      · rw [if_pos hq]; exact List.mem_cons_self _ _
      · rw [if_neg hq]; exact List.mem_cons_of_mem q ih

theorem countP_upsertPositionList (a : Position) (sym : String) (ha : a.symbol = sym) :
    ∀ l : List Position, (l.countP fun q => q.symbol = sym) ≤ 1 →
      ((upsertPositionList a l).countP fun q => q.symbol = sym) = 1 := by
  intro l
  induction l with
  | nil => intro _; simp [upsertPositionList, ha]
  | cons q qs ih =>
      intro h
      rw [List.countP_cons] at h
      rw [upsertPositionList]
      by_cases hq : q.symbol = a.symbol
      · rw [if_pos hq, List.countP_cons]
        have hone : (if (decide (q.symbol = sym)) = true then 1 else 0) = 1 := by
          simp [hq, ha]
        have hqs : (qs.countP fun q => q.symbol = sym) = 0 := by omega
        simp [hqs, ha]
      · rw [if_neg hq, List.countP_cons]
        have hzero : (if (decide (q.symbol = sym)) = true then 1 else 0) = 0 := by
          simp only [ite_eq_right_iff, decide_eq_true_eq]
          intro hcon
          exact absurd (hcon.trans ha.symm) hq
        rw [hzero, ih (by omega)]

theorem upsertPositionList_unique (b : Position) (sym : String) (hb : b.symbol = sym) :
    ∀ l : List Position, (l.countP fun q => q.symbol = sym) ≤ 1 →
      ∀ p ∈ upsertPositionList b l, p.symbol = sym → p = b := by
  intro l
  induction l with
  | nil =>
      intro _ p hp _
      simpa [upsertPositionList] using hp
  | cons q qs ih =>
      intro h p hp hpsym
      rw [List.countP_cons] at h
      rw [upsertPositionList] at hp
      by_cases hq : q.symbol = b.symbol
      · rw [if_pos hq] at hp
        rcases List.mem_cons.1 hp with rfl | hmem
        · rfl
        · exfalso
          have hone : (if (decide (q.symbol = sym)) = true then 1 else 0) = 1 := by
            simp [hq, hb]
          have hqs : (qs.countP fun q => q.symbol = sym) = 0 := by omega
          have hnot : ¬ p.symbol = sym := by
            simpa using List.countP_eq_zero.1 hqs p hmem
          exact hnot hpsym
      · rw [if_neg hq] at hp
        rcases List.mem_cons.1 hp with rfl | hmem
        · exact absurd (hpsym.trans hb.symm) hq
        · have hzero : (if (decide (q.symbol = sym)) = true then 1 else 0) = 0 := by
            simp only [ite_eq_right_iff, decide_eq_true_eq]
            intro hcon
            exact absurd (hcon.trans hb.symm) hq
          exact ih (by omega) p hmem hpsym

/-! ## Helper lemmas: the data-access layer under failure -/

theorem safeRequest_failing {r : Except String T} (h : Failing r) (fb : Unit → T) :
    safeRequest r fb = fb () := by
  cases hr : r with
  | ok v => exact absurd hr (h v)
  | error e => rfl

theorem getStrategies_failing {env : RemoteApi} (h : Failing env.strategies)
    (svc : ServiceState) : getStrategies env svc = (svc.strategyCache, svc) := by
  unfold getStrategies
  cases hr : env.strategies with
  | ok v => exact absurd hr (h v)
  | error e => rfl

theorem getRiskMetrics_failing {env : RemoteApi} (h : Failing env.risk)
    (svc : ServiceState) : getRiskMetrics env svc = (svc.riskCache, svc) := by
  unfold getRiskMetrics
  cases hr : env.risk with
  | ok v => exact absurd hr (h v)
  | error e => rfl

/-! ## Helper lemmas: the fallback filter contract -/

theorem strFilterFails_eq_false_iff (fopt : Option String) (v : String) :
    strFilterFails fopt v = false ↔
      ∀ s, fopt = some s → s ≠ "" → s ≠ "ALL" → v = s := by
  cases fopt with
  | none => simp [strFilterFails, strTruthy]
  | some s =>
      by_cases h1 : s = ""
      · subst h1; simp [strFilterFails, strTruthy]
      · by_cases h2 : s = "ALL"
        · subst h2; simp [strFilterFails, strTruthy]
        · by_cases h3 : v = s
          · simp [strFilterFails, strTruthy, h1, h2, h3]
          · simp [strFilterFails, strTruthy, h1, h2, h3]

theorem withinRange_iff (v : Int) (a b : Option Int) :
    withinRange v a b = true ↔
      (∀ x, a = some x → x ≤ v) ∧ (∀ y, b = some y → v ≤ y) := by
  cases a <;> cases b <;> simp [withinRange]

theorem tradePasses_iff (filters : Option TradeFilters) (trade : Trade) :
    tradePasses filters trade = true ↔
      (∀ sym, filters.bind TradeFilters.symbol = some sym → sym ≠ "" → sym ≠ "ALL" →
        trade.symbol = sym) ∧
      (∀ sd, filters.bind TradeFilters.side = some sd → sd ≠ "" → sd ≠ "ALL" →
        sideName trade.side = sd) ∧
      (∀ x, filters.bind TradeFilters.start = some x → x ≤ trade.timestamp) ∧
      (∀ y, filters.bind TradeFilters.endTime = some y → trade.timestamp ≤ y) := by
  have hchain : ∀ x y z : Bool,
      (if x then false else if y then false else if !z then false else true)
        = (!x && (!y && z)) := by
    decide
  unfold tradePasses
  rw [hchain]
  simp only [Bool.and_eq_true, Bool.not_eq_true']
  exact and_congr (strFilterFails_eq_false_iff _ _)
    (and_congr (strFilterFails_eq_false_iff _ _) (withinRange_iff _ _ _))

/-! ## Claim theorems -/

/-- C1, counterexample to the claim as stated: two upserted orders with
equal timestamps and distinct ids leave a collection that is not
STRICTLY sorted by timestamp descending, already from the empty initial
state. -/
theorem C1_strict_sort_cex :
    ¬ ((applyEvents initialState
        [(0, AccountAction.upsertOrder cexOrderA),
         (0, AccountAction.upsertOrder cexOrderB)]).orders.Pairwise
        fun a b => b.timestamp < a.timestamp) := by
  decide

/-- C1, amended: for every state whose orders (resp. trades) already have
pairwise-distinct ids and every nonempty sequence of UPSERT_ORDER
(resp. UPSERT_TRADE) events, the resulting collection is sorted by
timestamp descending (non-strictly: ties are allowed), has at most one
entry per id, and for each id the retained entry is the last-written
payload for that id. -/
theorem C1_upsert_sorted_unique_lww (s : AccountState)
    (es : List (Int × Order)) (ts : List (Int × Trade))
    (hso : s.orders.Pairwise fun a b => a.id ≠ b.id)
    (hst : s.trades.Pairwise fun a b => a.id ≠ b.id)
    (hes : es ≠ []) (hts : ts ≠ []) :
    (((applyEvents s (es.map fun e => (e.1, AccountAction.upsertOrder e.2))).orders.Pairwise
        fun a b => b.timestamp ≤ a.timestamp) ∧
      ((applyEvents s (es.map fun e => (e.1, AccountAction.upsertOrder e.2))).orders.Pairwise
        fun a b => a.id ≠ b.id) ∧
      ∀ (i : String) (p : Order),
        ((es.map Prod.snd).reverse.find? fun q => q.id = i) = some p →
        p ∈ (applyEvents s (es.map fun e => (e.1, AccountAction.upsertOrder e.2))).orders ∧
        ∀ y ∈ (applyEvents s (es.map fun e => (e.1, AccountAction.upsertOrder e.2))).orders,
          y.id = i → y = p) ∧
    (((applyEvents s (ts.map fun e => (e.1, AccountAction.upsertTrade e.2))).trades.Pairwise
        fun a b => b.timestamp ≤ a.timestamp) ∧
      ((applyEvents s (ts.map fun e => (e.1, AccountAction.upsertTrade e.2))).trades.Pairwise
        fun a b => a.id ≠ b.id) ∧
      ∀ (i : String) (p : Trade),
        ((ts.map Prod.snd).reverse.find? fun q => q.id = i) = some p →
        p ∈ (applyEvents s (ts.map fun e => (e.1, AccountAction.upsertTrade e.2))).trades ∧
        ∀ y ∈ (applyEvents s (ts.map fun e => (e.1, AccountAction.upsertTrade e.2))).trades,
          y.id = i → y = p) := by
  rw [applyEvents_upsertOrder_orders, applyEvents_upsertTrade_trades]
  have hes' : es.map Prod.snd ≠ [] := by simpa using hes
  have hts' : ts.map Prod.snd ≠ [] := by simpa using hts
  exact ⟨⟨foldUpsert_sorted _ _ _ hes' _, foldUpsert_pairwise_ne _ _ _ _ hso,
      fun i p hp => foldUpsert_lww _ _ _ _ i p hp⟩,
    ⟨foldUpsert_sorted _ _ _ hts' _, foldUpsert_pairwise_ne _ _ _ _ hst,
      fun i p hp => foldUpsert_lww _ _ _ _ i p hp⟩⟩

/-- C1, witness: the amended invariant at a concrete two-order and
two-trade trace from the empty initial state. -/
theorem C1_upsert_sorted_unique_lww_witness :
    ((initialState.orders.Pairwise fun a b => a.id ≠ b.id) ∧
      (initialState.trades.Pairwise fun a b => a.id ≠ b.id) ∧
      ([((0 : Int), cexOrderA), (1, cexOrderB)] : List (Int × Order)) ≠ [] ∧
      ([((0 : Int), cexTradeA), (1, cexTradeB)] : List (Int × Trade)) ≠ []) ∧
    ((((applyEvents initialState
          (([((0 : Int), cexOrderA), (1, cexOrderB)]).map
            fun e => (e.1, AccountAction.upsertOrder e.2))).orders.Pairwise
          fun a b => b.timestamp ≤ a.timestamp) ∧
        ((applyEvents initialState
          (([((0 : Int), cexOrderA), (1, cexOrderB)]).map
            fun e => (e.1, AccountAction.upsertOrder e.2))).orders.Pairwise
          fun a b => a.id ≠ b.id) ∧
        ∀ (i : String) (p : Order),
          ((([((0 : Int), cexOrderA), (1, cexOrderB)]).map Prod.snd).reverse.find?
              fun q => q.id = i) = some p →
          p ∈ (applyEvents initialState
            (([((0 : Int), cexOrderA), (1, cexOrderB)]).map
              fun e => (e.1, AccountAction.upsertOrder e.2))).orders ∧
          ∀ y ∈ (applyEvents initialState
            (([((0 : Int), cexOrderA), (1, cexOrderB)]).map
              fun e => (e.1, AccountAction.upsertOrder e.2))).orders,
            y.id = i → y = p) ∧
      (((applyEvents initialState
          (([((0 : Int), cexTradeA), (1, cexTradeB)]).map
            fun e => (e.1, AccountAction.upsertTrade e.2))).trades.Pairwise
          fun a b => b.timestamp ≤ a.timestamp) ∧
        ((applyEvents initialState
          (([((0 : Int), cexTradeA), (1, cexTradeB)]).map
            fun e => (e.1, AccountAction.upsertTrade e.2))).trades.Pairwise
          fun a b => a.id ≠ b.id) ∧
        ∀ (i : String) (p : Trade),
          ((([((0 : Int), cexTradeA), (1, cexTradeB)]).map Prod.snd).reverse.find?
              fun q => q.id = i) = some p →
          p ∈ (applyEvents initialState
            (([((0 : Int), cexTradeA), (1, cexTradeB)]).map
              fun e => (e.1, AccountAction.upsertTrade e.2))).trades ∧
          ∀ y ∈ (applyEvents initialState
            (([((0 : Int), cexTradeA), (1, cexTradeB)]).map
              fun e => (e.1, AccountAction.upsertTrade e.2))).trades,
            y.id = i → y = p)) :=
  ⟨⟨by decide, by decide, by decide, by decide⟩,
    C1_upsert_sorted_unique_lww initialState
      [((0 : Int), cexOrderA), (1, cexOrderB)]
      [((0 : Int), cexTradeA), (1, cexTradeB)]
      (by decide) (by decide) (by decide) (by decide)⟩

/-- C4, counterexample to the claim as stated: MARK_NOTIFICATION on an
absent id is not a structural no-op — the reducer unconditionally bumps
lastUpdated to the current clock. -/
theorem C4_not_noop_cex :
    accountReducer 0 initialState (.markNotification "notif-404" true) ≠ initialState := by
  decide

/-- C4, amended: on an id absent from the notifications list the reducer
returns the input state unchanged in every field except lastUpdated,
which is set to the dispatch-time clock; in particular the notifications
list itself is structurally unchanged. -/
theorem C4_markNotification_absent (t : Int) (s : AccountState) (nid : String) (rd : Bool)
    (h : ∀ n ∈ s.notifications, n.id ≠ nid) :
    accountReducer t s (.markNotification nid rd) = { s with lastUpdated := some t } := by
  have hmap : (s.notifications.map fun n => if n.id = nid then { n with read := rd } else n)
      = s.notifications :=
    map_mem_id _ fun n hn => if_neg (h n hn)
  show ({ s with notifications := _, lastUpdated := some t } : AccountState) = _
  rw [hmap]

/-- C4, witness: the amended statement at the empty initial state. -/
theorem C4_markNotification_absent_witness :
    (∀ n ∈ initialState.notifications, n.id ≠ "notif-404") ∧
    accountReducer 0 initialState (.markNotification "notif-404" true)
      = { initialState with lastUpdated := some 0 } :=
  ⟨by decide, C4_markNotification_absent 0 initialState "notif-404" true (by decide)⟩

/-- C5, counterexample to the claim as stated: the reducer reads the
wall clock (new Date()), so two evaluations of the same (state, action)
pair at different instants yield structurally different states. -/
theorem C5_clock_dependent_cex :
    accountReducer 0 initialState (.addNotification sampleNotification)
      ≠ accountReducer 1 initialState (.addNotification sampleNotification) := by
  decide

/-- C5, amended: the reducer is a total pure function of (clock, state,
action); it performs no I/O besides reading the clock and never throws,
and two evaluations on the same (state, action) pair agree on every
field except lastUpdated, whatever the two clock values were. -/
theorem C5_pure_modulo_lastUpdated (t1 t2 : Int) (s : AccountState) (a : AccountAction) :
    stripLastUpdated (accountReducer t1 s a) = stripLastUpdated (accountReducer t2 s a) := by
  cases a <;> rfl

/-- C6: from any state, 51 consecutive ADD_NOTIFICATION events leave
exactly 50 notifications, namely the 50 most recently added payloads,
newest first (the reversed payload sequence without its oldest entry). -/
theorem C6_notification_cap (evs : List (Int × Notification)) (s : AccountState)
    (h : evs.length = 51) :
    (applyEvents s (evs.map fun e =>
        (e.1, AccountAction.addNotification e.2))).notifications.length = 50 ∧
    (applyEvents s (evs.map fun e =>
        (e.1, AccountAction.addNotification e.2))).notifications
      = ((evs.map Prod.snd).reverse).take 50 ∧
    ((evs.map Prod.snd).reverse).take 50 = ((evs.map Prod.snd).drop 1).reverse := by
  cases evs with
  | nil => exact absurd h (by simp)
  | cons e evs' =>
      have h' : (evs'.map Prod.snd).length = 50 := by simpa using h
      have hlen1 : (accountReducer e.1 s (.addNotification e.2)).notifications.length ≤ 50 := by
        show ((e.2 :: s.notifications).take 50).length ≤ 50
        rw [List.length_take]
        exact Nat.min_le_left _ _
      have hfold := addNotification_fold evs' (accountReducer e.1 s (.addNotification e.2)) hlen1
      have hrevlen : ((evs'.map Prod.snd).reverse).length = 50 := by
        rw [List.length_reverse, h']
      have htake : ∀ Y : List Notification,
          (((evs'.map Prod.snd).reverse) ++ Y).take 50 = (evs'.map Prod.snd).reverse := by
        intro Y
        rw [List.take_append_of_le_length (by rw [hrevlen]),
            List.take_of_length_le (by rw [hrevlen])]
      have hmain : (applyEvents s ((e :: evs').map fun e =>
          (e.1, AccountAction.addNotification e.2))).notifications
            = (evs'.map Prod.snd).reverse := by
        rw [List.map_cons,
            show applyEvents s (((e.1, AccountAction.addNotification e.2)) ::
                evs'.map fun e => (e.1, AccountAction.addNotification e.2))
              = applyEvents (accountReducer e.1 s (.addNotification e.2))
                  (evs'.map fun e => (e.1, AccountAction.addNotification e.2)) from rfl,
            hfold, htake]
      have hrhs : (((e :: evs').map Prod.snd).reverse).take 50 = (evs'.map Prod.snd).reverse := by
        rw [List.map_cons, List.reverse_cons, htake]
      refine ⟨?_, ?_, ?_⟩
      · rw [hmain, List.length_reverse, h']
      · rw [hmain, hrhs]
      · rw [hrhs, List.map_cons]
        simp
/-- C6, witness: 51 identical notification events applied to the empty
initial state. -/
theorem C6_notification_cap_witness :
    (List.replicate 51 ((0 : Int), sampleNotification)).length = 51 ∧
    ((applyEvents initialState ((List.replicate 51 ((0 : Int), sampleNotification)).map fun e =>
        (e.1, AccountAction.addNotification e.2))).notifications.length = 50 ∧
      (applyEvents initialState ((List.replicate 51 ((0 : Int), sampleNotification)).map fun e =>
        (e.1, AccountAction.addNotification e.2))).notifications
        = (((List.replicate 51 ((0 : Int), sampleNotification)).map Prod.snd).reverse).take 50 ∧
      (((List.replicate 51 ((0 : Int), sampleNotification)).map Prod.snd).reverse).take 50
        = (((List.replicate 51 ((0 : Int), sampleNotification)).map Prod.snd).drop 1).reverse) :=
  ⟨by decide, C6_notification_cap (List.replicate 51 ((0 : Int), sampleNotification))
    initialState (by decide)⟩

/-- C7: the dispatcher routes each realtime message variant to exactly
the store action of the fixed table (balance_update to a wholesale
balance replace, position_update / order_update / trade_update to the
respective upserts, risk_update to SET_RISK plus the service risk-cache
write, notification to ADD_NOTIFICATION), and any message with an
unrecognized type discriminant leaves both the account state and the
service state unchanged. -/
theorem C7_dispatch_table (t : Int) (svc : ServiceState) (s : AccountState) :
    (∀ bs, handleRealtimeMessage t svc (.balanceUpdate bs) s
        = (accountReducer t s (.upsertBalances bs), svc)) ∧
    (∀ p, handleRealtimeMessage t svc (.positionUpdate p) s
        = (accountReducer t s (.upsertPosition p), svc)) ∧
    (∀ o, handleRealtimeMessage t svc (.orderUpdate o) s
        = (accountReducer t s (.upsertOrder o), svc)) ∧
    (∀ tr, handleRealtimeMessage t svc (.tradeUpdate tr) s
        = (accountReducer t s (.upsertTrade tr), svc)) ∧
    (∀ r, handleRealtimeMessage t svc (.riskUpdate r) s
        = (accountReducer t s (.setRisk r), setRiskCache svc r)) ∧
    (∀ n, handleRealtimeMessage t svc (.notification n) s
        = (accountReducer t s (.addNotification n), svc)) ∧
    (∀ ty, handleRealtimeMessage t svc (.other ty) s = (s, svc)) :=
  ⟨fun _ => rfl, fun _ => rfl, fun _ => rfl, fun _ => rfl, fun _ => rfl,
    fun _ => rfl, fun _ => rfl⟩

/-- C9, counterexample to the claim as stated: if the starting state
already holds two entries for the symbol, two same-symbol upserts leave
two entries, not exactly one. -/
theorem C9_duplicate_cex :
    ((accountReducer 1 (accountReducer 0 dupPositionsState (.upsertPosition posBtcA))
        (.upsertPosition posBtcB)).positions.countP
      fun p => p.symbol = "BTC/USDT") ≠ 1 := by
  decide

/-- C9, amended: provided the starting positions list holds at most one
entry for the symbol, applying two UPSERT_POSITION actions carrying that
symbol leaves exactly one entry for it, and that entry is the second
payload. -/
theorem C9_upsert_position_last_wins (t1 t2 : Int) (s : AccountState) (a b : Position)
    (hab : a.symbol = b.symbol)
    (h : (s.positions.countP fun p => p.symbol = b.symbol) ≤ 1) :
    ((accountReducer t2 (accountReducer t1 s (.upsertPosition a))
        (.upsertPosition b)).positions.countP fun p => p.symbol = b.symbol) = 1 ∧
    b ∈ (accountReducer t2 (accountReducer t1 s (.upsertPosition a))
        (.upsertPosition b)).positions ∧
    ∀ p ∈ (accountReducer t2 (accountReducer t1 s (.upsertPosition a))
        (.upsertPosition b)).positions, p.symbol = b.symbol → p = b := by
  have hpos : (accountReducer t2 (accountReducer t1 s (.upsertPosition a))
      (.upsertPosition b)).positions
        = upsertPositionList b (upsertPositionList a s.positions) := rfl
  have h1 : ((upsertPositionList a s.positions).countP fun p => p.symbol = b.symbol) = 1 :=
    countP_upsertPositionList a b.symbol hab s.positions h
  rw [hpos]
  exact ⟨countP_upsertPositionList b b.symbol rfl _ h1.le,
    self_mem_upsertPositionList b _,
    upsertPositionList_unique b b.symbol rfl _ h1.le⟩

/-- C9, witness: two BTC/USDT upserts with different markPrice values on
the empty initial state. -/
theorem C9_upsert_position_last_wins_witness :
    (posBtcA.symbol = posBtcB.symbol ∧
      (initialState.positions.countP fun p => p.symbol = posBtcB.symbol) ≤ 1) ∧
    (((accountReducer 1 (accountReducer 0 initialState (.upsertPosition posBtcA))
        (.upsertPosition posBtcB)).positions.countP fun p => p.symbol = posBtcB.symbol) = 1 ∧
      posBtcB ∈ (accountReducer 1 (accountReducer 0 initialState (.upsertPosition posBtcA))
          (.upsertPosition posBtcB)).positions ∧
      ∀ p ∈ (accountReducer 1 (accountReducer 0 initialState (.upsertPosition posBtcA))
          (.upsertPosition posBtcB)).positions, p.symbol = posBtcB.symbol → p = posBtcB) :=
  ⟨⟨rfl, by decide⟩,
    C9_upsert_position_last_wins 0 1 initialState posBtcA posBtcB rfl (by decide)⟩

/-- C2: when every remote call of the data-access layer fails,
loadInitial completes with loading = false, error = null, and every slice
of the resulting state equal to its resource's deterministic fallback
(the mock dataset, the unfiltered mock order and trade lists, the ALL
performance record, the 1M asset history, the mock trade statistics,
strategies, risk and notifications), with the range selectors reset and
lastUpdated stamped with the dispatch clock. -/
theorem C2_loadInitial_fallback (env : RemoteApi) (fd : FloatGenData) (now t : Int)
    (s : AccountState) (h : allRequestsFail env) :
    (loadInitialData env (initialServiceState now) now fd t s).1 =
      { balance := mockBalances
        positions := mockPositions now
        orders := getMockOrders now none
        trades := getMockTrades now none
        performance := some (getMockPerformance .ALL)
        performanceRange := .ALL
        assetHistory := getMockAssetHistory fd .oneM
        assetHistoryRange := .oneM
        tradeStats := some (getMockTradeStatistics fd none)
        strategies := mockStrategies now
        risk := some (mockRiskMetrics now)
        notifications := mockNotifications now
        loading := false
        error := none
        lastUpdated := some t } := by
  obtain ⟨hb, hp, ho, ht, hperf, hah, hts, hstr, _hupd, hrisk, hnot⟩ := h
  simp [loadInitialData, getInitialAccountState, getAccountBalance, getPositions,
    getOrderHistory, getTradeHistory, getPerformanceMetrics, getAssetHistory,
    getTradeStatistics, getNotifications, getStrategies_failing hstr,
    getRiskMetrics_failing hrisk, safeRequest_failing hb, safeRequest_failing hp,
    safeRequest_failing (ho none), safeRequest_failing (ht none),
    safeRequest_failing (hperf PerformanceRange.ALL), safeRequest_failing (hah TimeRange.oneM),
    safeRequest_failing (hts none), safeRequest_failing hnot,
    accountReducer, applyPartial, initialServiceState]

/-- C2, witness: the all-failing remote API at clock 0 from the empty
initial state. -/
theorem C2_loadInitial_fallback_witness :
    allRequestsFail failEnv ∧
    (loadInitialData failEnv (initialServiceState 0) 0 emptyFloatData 0 initialState).1 =
      { balance := mockBalances
        positions := mockPositions 0
        orders := getMockOrders 0 none
        trades := getMockTrades 0 none
        performance := some (getMockPerformance .ALL)
        performanceRange := .ALL
        assetHistory := getMockAssetHistory emptyFloatData .oneM
        assetHistoryRange := .oneM
        tradeStats := some (getMockTradeStatistics emptyFloatData none)
        strategies := mockStrategies 0
        risk := some (mockRiskMetrics 0)
        notifications := mockNotifications 0
        loading := false
        error := none
        lastUpdated := some 0 } :=
  have hfail : allRequestsFail failEnv := by
    simp [allRequestsFail, Failing, failEnv]
  ⟨hfail, C2_loadInitial_fallback failEnv emptyFloatData 0 0 initialState hfail⟩

/-- C3, counterexample to the claim as stated: from the Open state, a
close at clock 0 arms the reconnect timeout due at 5000; disconnect() at
clock 1000 — before the interval elapses — only calls ws.close() and
cancels nothing, so the timeout still fires at 5000 and invokes
connect(): the scheduled reconnect is not prevented from firing. -/
theorem C3_disconnect_cex :
    (wsSteps sampleOpenClient
      [(0, WsEvent.close), (1000, WsEvent.disconnect), (5000, WsEvent.fire)]).reconnects ≠ 0 := by
  decide

/-- C3, amended: an unexpected close from the Open state (no timeout
armed yet) schedules exactly one reconnect attempt, due exactly the
configured 5000 ms later and not yet fired; but calling disconnect()
before that interval elapses does NOT prevent it — the client keeps no
timer handle and no manual-close flag, so the timeout is still armed
after disconnect() and fires at its due time, invoking connect(). -/
theorem C3_reconnect_not_cancelled (c : WsClient) (t tDisc : Int)
    (_hOpen : c.wsOpen = true) (hPending : c.pendingReconnects = [])
    (_hBefore : tDisc < t + reconnectInterval) :
    (wsStep t c .close).pendingReconnects = [t + reconnectInterval] ∧
    (wsStep t c .close).reconnects = c.reconnects ∧
    (wsStep tDisc (wsStep t c .close) .disconnect).pendingReconnects
      = [t + reconnectInterval] ∧
    (wsStep (t + reconnectInterval)
        (wsStep tDisc (wsStep t c .close) .disconnect) .fire).reconnects
      = c.reconnects + 1 := by
  have hclose : wsStep t c .close
      = { c with wsOpen := false, pendingReconnects := [t + reconnectInterval] } := by
    simp [wsStep, hPending]
  have hdisc : wsStep tDisc (wsStep t c .close) .disconnect
      = { c with wsOpen := false, pendingReconnects := [t + reconnectInterval] } := by
    rw [hclose]
    rfl
  refine ⟨by rw [hclose], by rw [hclose], by rw [hdisc], ?_⟩
  rw [hdisc]
  simp [wsStep]

/-- C3, witness: a freshly opened client, close at clock 0, disconnect at
clock 1000 (before the 5000 ms interval elapses), the armed timeout
firing at 5000. -/
theorem C3_reconnect_not_cancelled_witness :
    (sampleOpenClient.wsOpen = true ∧ sampleOpenClient.pendingReconnects = [] ∧
      (1000 : Int) < 0 + reconnectInterval) ∧
    ((wsStep 0 sampleOpenClient .close).pendingReconnects = [0 + reconnectInterval] ∧
      (wsStep 0 sampleOpenClient .close).reconnects = sampleOpenClient.reconnects ∧
      (wsStep 1000 (wsStep 0 sampleOpenClient .close) .disconnect).pendingReconnects
        = [0 + reconnectInterval] ∧
      (wsStep (0 + reconnectInterval)
          (wsStep 1000 (wsStep 0 sampleOpenClient .close) .disconnect) .fire).reconnects
        = sampleOpenClient.reconnects + 1) :=
  ⟨⟨rfl, rfl, by decide⟩,
    C3_reconnect_not_cancelled sampleOpenClient 0 1000 rfl rfl (by decide)⟩

/-- C8, counterexample to the claim as stated: with a supplied symbol
filter equal to the empty string (present, and neither absent nor
"ALL"), the fallback keeps every trade — JS truthiness skips the empty
string — so the returned list contains trades whose symbol differs from
the supplied filter value. -/
theorem C8_empty_symbol_cex :
    ¬ (∀ trade ∈ getMockTrades 0 (some emptySymbolFilters), trade.symbol = "") := by
  decide

/-- C8, amended: a trade is in the filtered fallback list exactly when it
is in the fallback dataset and matches every supplied filter, where a
supplied but empty symbol or side string is skipped like an absent one:
symbol equal (unless absent, empty, or "ALL"), side equal (unless
absent, empty, or "ALL"), and the timestamp within the inclusive
[start, end] bounds whenever those are supplied. -/
theorem C8_mock_trade_filter (now : Int) (filters : Option TradeFilters) (trade : Trade) :
    trade ∈ getMockTrades now filters ↔
      trade ∈ baseTrades now ∧
      (∀ sym, filters.bind TradeFilters.symbol = some sym → sym ≠ "" → sym ≠ "ALL" →
        trade.symbol = sym) ∧
      (∀ sd, filters.bind TradeFilters.side = some sd → sd ≠ "" → sd ≠ "ALL" →
        sideName trade.side = sd) ∧
      (∀ x, filters.bind TradeFilters.start = some x → x ≤ trade.timestamp) ∧
      (∀ y, filters.bind TradeFilters.endTime = some y → trade.timestamp ≤ y) := by
  unfold getMockTrades
  rw [List.mem_filter]
  exact and_congr_right fun _ => tradePasses_iff filters trade

/-- C10: toggling a strategy id that is absent from the current
strategies list is not rejected: the find miss makes the requested
status default to running, the remote mutation is invoked with it, and
the strategies slice is replaced by whatever list that call returns. -/
theorem C10_toggle_absent_defaults_running (env : RemoteApi) (svc : ServiceState)
    (now t : Int) (s : AccountState) (strategyId : String)
    (h : ∀ st ∈ s.strategies, st.id ≠ strategyId) :
    nextStatusFor s.strategies strategyId = .running ∧
    (toggleStrategyStatus env svc now t s strategyId).1.strategies
      = (updateStrategyStatus env svc now strategyId .running).1 := by
  have hfind : s.strategies.find? (fun item => item.id = strategyId) = none :=
    List.find?_eq_none.2 fun x hx => by simpa using h x hx
  have hnext : nextStatusFor s.strategies strategyId = .running := by
    unfold nextStatusFor
    rw [hfind]
  refine ⟨hnext, ?_⟩
  rcases hupd : updateStrategyStatus env svc now strategyId .running with ⟨u, sv⟩
  simp only [toggleStrategyStatus, hnext, hupd]
  rfl

/-- C10, witness: an id absent from the empty initial strategies list,
against the all-failing remote API. -/
theorem C10_toggle_absent_defaults_running_witness :
    (∀ st ∈ initialState.strategies, st.id ≠ "strat-404") ∧
    (nextStatusFor initialState.strategies "strat-404" = .running ∧
      (toggleStrategyStatus failEnv (initialServiceState 0) 0 0 initialState
          "strat-404").1.strategies
        = (updateStrategyStatus failEnv (initialServiceState 0) 0 "strat-404" .running).1) :=
  ⟨by decide,
    C10_toggle_absent_defaults_running failEnv (initialServiceState 0) 0 0 initialState
      "strat-404" (by decide)⟩

end AccountSync
